import Mathlib

/-!
Verification of the dbot purchase-fulfillment pipeline.

Shallow embedding of the relevant parts of the source:
* `src/models/database.py` - the row types (users, transactions, items,
  purchases, gifts) including the `check_coins_non_negative` constraint
  on the users table;
* `src/discord_bot_slash.py` - the slash-command bot: the message-earn
  path (`process_coin_earning`), `buy_command`, `gift_command`, and the
  fulfillment worker (`process_pending_purchases`, `fulfill_purchase`,
  `execute_minecraft_command`);
* `src/discord_bot.py` - the legacy bot and its fulfillment worker
  (`process_pending_purchases`);
* `src/routes/api.py` - the administrative coin adjustment
  (`update_user_coins`);
* `src/minecraft_integration.py` - the remote-execution client
  (`get_server_status`, `execute_command`).

External calls (role grant, RCON command, DM notification) are modelled
by oracles recording the outcome of the call; the SQLAlchemy session is
modelled by explicit state passing, where a commit either applies all
pending changes or, when the database check constraint rejects it, leaves
the committed state unchanged.
-/

namespace DBot

/-- A row of the transactions table (`Transaction` in database.py).
The SQLAlchemy primary key and timestamps are not needed by the claims. -/
structure Txn where
  user_id : Nat
  transaction_type : String
  amount : Int
  description : String
  reference_id : Option String
  deriving Repr, DecidableEq

/-- A row of the items table (`Item` in database.py). -/
structure ItemRec where
  id : Nat
  name : String
  price : Int
  category : String
  item_type : String
  discord_role_id : Option String
  minecraft_command_template : Option String
  is_available : Bool
  deriving Repr, DecidableEq

/-- A row of the users table (`User` in database.py).  The coins column
is carried separately in `Store.coins`; `minecraft_uuid` is nullable. -/
structure UserRec where
  id : Nat
  discord_id : String
  username : String
  minecraft_uuid : Option String
  deriving Repr, DecidableEq

/-- A row of the purchases table (`Purchase` in database.py).  The field
`id` is the database primary key: it is `none` on a freshly constructed
Python object and is assigned only when the session flushes the INSERT -
exactly the semantics SQLAlchemy gives `purchase.id` before a flush. -/
structure PurchaseRec where
  id : Option Nat
  user_id : Nat
  item_id : Nat
  quantity : Int
  total_cost : Int
  status : String
  fulfilled_at : Option Nat
  minecraft_command : Option String
  discord_role_assigned : Bool
  deriving Repr, DecidableEq

/-- A row of the gifts table (`Gift` in database.py); `id` is `none`
until the INSERT is flushed, as for `PurchaseRec.id`. -/
structure GiftRec where
  id : Option Nat
  sender_id : Nat
  recipient_id : Nat
  amount : Int
  message : Option String
  status : String
  processed_at : Option Nat
  deriving Repr, DecidableEq

/-- Python string conversion of an optional integer primary key, as it
happens inside an f-string: `str(None)` is the literal string "None". -/
def pyStr : Option Nat → String
  | none => "None"
  | some n => toString n

/-- Does `pat` occur at the head of `s`?  (Helper for `pyReplace`.) -/
def leadsWith : List Char → List Char → Bool
  | [], _ => true
  | _ :: _, [] => false
  | p :: ps, c :: cs => p == c && leadsWith ps cs

/-- Fuel-indexed scan for `pyReplace`: replaces non-overlapping
occurrences of `pat` left to right, like Python `str.replace`.  One unit
of fuel is spent per consumed character, so `s.length` fuel suffices. -/
def replaceFuel (pat rep : List Char) : Nat → List Char → List Char
  | _, [] => []
  | 0, s => s
  | fuel + 1, c :: rest =>
    if leadsWith pat (c :: rest) then
      rep ++ replaceFuel pat rep fuel (rest.drop (pat.length - 1))
    else
      c :: replaceFuel pat rep fuel rest

/-- Python `s.replace(pat, rep)` for the non-empty patterns used by the
command templates. -/
def pyReplace (s pat rep : String) : String :=
  String.mk (replaceFuel pat.data rep.data s.data.length s.data)

/-- Does the item require the Discord role-grant side effect?  Mirrors
the guard `item.item_type in ['discord', 'both'] and item.discord_role_id`
in `fulfill_purchase` (discord_bot_slash.py line 218). -/
def requiresRole (item : ItemRec) : Bool :=
  (item.item_type == "discord" || item.item_type == "both")
    && item.discord_role_id.isSome

/-- Does the item require the Minecraft command side effect?  Mirrors
`item.item_type in ['minecraft', 'both'] and item.minecraft_command_template`
in `fulfill_purchase` (discord_bot_slash.py line 226). -/
def requiresCommand (item : ItemRec) : Bool :=
  (item.item_type == "minecraft" || item.item_type == "both")
    && item.minecraft_command_template.isSome

/-- Placeholder substitution of `execute_minecraft_command`
(discord_bot_slash.py lines 265-267): replace `{username}`, then
`{discord_id}`, then `{minecraft_uuid}` (falling back to the username
when no Minecraft UUID is linked). -/
def resolveCommand (tmpl : String) (user : UserRec) : String :=
  pyReplace
    (pyReplace (pyReplace tmpl "\x7busername\x7d" user.username)
      "\x7bdiscord_id\x7d" user.discord_id)
    "\x7bminecraft_uuid\x7d" (user.minecraft_uuid.getD user.username)

/-- `Item.query.get(item_id)`. -/
def findItem (items : List ItemRec) (iid : Nat) : Option ItemRec :=
  items.find? (fun it => it.id == iid)

/-- `User.query.get(user_id)`. -/
def findUser (users : List UserRec) (uid : Nat) : Option UserRec :=
  users.find? (fun u => u.id == uid)

/-- Observable events of a worker sweep, in program order: database
commits and calls to the external world. -/
inductive Event where
  /-- `purchase.status = 'processing'; db.session.commit()` - the claim
  write for the purchase with the given primary key. -/
  | claimCommit (pid : Option Nat)
  /-- `assign_discord_role` - external call to the chat platform. -/
  | roleCall (pid : Option Nat)
  /-- `integration.execute_command cmd` - external RCON call. -/
  | commandCall (pid : Option Nat) (cmd : String)
  /-- terminal `db.session.commit()` writing the given final status. -/
  | terminalCommit (pid : Option Nat) (status : String)
  /-- `discord_user.send(embed)` - buyer notification DM. -/
  | notifySend (uid : Nat)
  /-- the single `db.session.commit()` the legacy sweep issues after
  its loop over all pending purchases. -/
  | sweepCommit
  deriving Repr, DecidableEq

/-- Is the event a call to the external world (role grant, remote
command, or notification DM)? -/
def Event.isExternal : Event → Bool
  | .roleCall _ => true
  | .commandCall _ _ => true
  | .notifySend _ => true
  | _ => false

/-- Outcomes of the external calls a single purchase can make, plus the
clock value used for `datetime.utcnow()`.  `assign_discord_role` and
`integration.execute_command` both return a plain boolean and never
raise into the worker. -/
structure SlashEnv where
  roleOk : Bool
  cmdOk : Bool
  now : Nat
  deriving Repr, DecidableEq

/-- `execute_minecraft_command` (discord_bot_slash.py lines 257-279):
resolves the template and executes it; the resolved command is stored on
the purchase only inside the `if success:` branch. -/
def execute_minecraft_command (env : SlashEnv) (user : UserRec)
    (item : ItemRec) (purchase : PurchaseRec) : Bool × PurchaseRec :=
  let cmd := resolveCommand (item.minecraft_command_template.getD "") user
  if env.cmdOk then (true, { purchase with minecraft_command := some cmd })
  else (false, purchase)

/-- `fulfill_purchase` (discord_bot_slash.py lines 212-235): `success`
starts true; a required role grant that fails clears it but the command
branch still runs; a required command that fails clears it.  Returns the
final success flag, the updated purchase row, and the external calls
made, in order. -/
def fulfill_purchase (env : SlashEnv) (purchase : PurchaseRec)
    (item : ItemRec) (user : UserRec) : Bool × PurchaseRec × List Event :=
  let step1 : Bool × PurchaseRec × List Event :=
    if requiresRole item then
      if env.roleOk then
        (true, { purchase with discord_role_assigned := true },
          [Event.roleCall purchase.id])
      else (false, purchase, [Event.roleCall purchase.id])
    else (true, purchase, [])
  let success1 := step1.1
  let p1 := step1.2.1
  let ev1 := step1.2.2
  if requiresCommand item then
    let r := execute_minecraft_command env user item p1
    (success1 && r.1, r.2,
      ev1 ++ [Event.commandCall purchase.id
        (resolveCommand (item.minecraft_command_template.getD "") user)])
  else (success1, p1, ev1)

/-- Body of the per-purchase loop of `process_pending_purchases` in
discord_bot_slash.py (lines 181-207): first write and commit the
`processing` claim, then resolve item and user (missing row: direct
transition to `failed`), then run `fulfill_purchase` and commit the
terminal status (`fulfilled` sets `fulfilled_at`). -/
def processPurchaseSlash (env : SlashEnv) (items : List ItemRec)
    (users : List UserRec) (p : PurchaseRec) : PurchaseRec × List Event :=
  let p0 := { p with status := "processing" }
  match findItem items p.item_id, findUser users p.user_id with
  | some item, some user =>
    let r := fulfill_purchase env p0 item user
    let p2 :=
      if r.1 then
        { r.2.1 with status := "fulfilled", fulfilled_at := some env.now }
      else { r.2.1 with status := "failed" }
    (p2, Event.claimCommit p.id ::
      (r.2.2 ++ [Event.terminalCommit p.id p2.status]))
  | _, _ =>
    ({ p0 with status := "failed" },
      [Event.claimCommit p.id, Event.terminalCommit p.id "failed"])

/-- One sweep of the slash-bot worker over the purchases table: the
query `Purchase.query.filter_by(status='pending')` selects only rows in
`pending`; every selected row is processed by `processPurchaseSlash`,
every other row is untouched.  Returns the updated table. -/
def sweepSlash (env : SlashEnv) (items : List ItemRec)
    (users : List UserRec) (purchases : List PurchaseRec) : List PurchaseRec :=
  purchases.map (fun p =>
    if p.status == "pending" then (processPurchaseSlash env items users p).1
    else p)

/-- The event trace of one sweep of the slash-bot worker, in program
order: only rows selected by the `status='pending'` query produce
events. -/
def sweepSlashEvents (env : SlashEnv) (items : List ItemRec)
    (users : List UserRec) (purchases : List PurchaseRec) : List Event :=
  purchases.foldr
    (fun p acc =>
      (if p.status == "pending" then (processPurchaseSlash env items users p).2
       else []) ++ acc) []

/-- The left brace character, used by the Python format scanner. -/
def lbrace : Char := Char.ofNat 123

/-- The right brace character, used by the Python format scanner. -/
def rbrace : Char := Char.ofNat 125

/-- Fuel-indexed scanner for Python `tmpl.format(username=value)` as
called by the legacy worker (discord_bot.py line 212): doubled braces
are escapes for literal braces, the only replacement field that
resolves is the plain `\x7busername\x7d`, and any other replacement
field (such as `\x7bdiscord_id\x7d` or `\x7bminecraft_uuid\x7d`) or a
stray single brace makes `.format` raise (`KeyError`, `IndexError` or
`ValueError`), modelled as `none`.  A `username` field carrying a
conversion or format spec is likewise modelled as raising; no theorem
below depends on the behaviour at such templates.  One unit of fuel is
spent per consumed character, so the template length suffices. -/
def formatUsernameFuel (value : List Char) : Nat → List Char → Option (List Char)
  | _, [] => some []
  | 0, _ => none
  | fuel + 1, c :: rest =>
    if c = lbrace then
      match rest with
      | [] => none
      | c2 :: rest2 =>
        if c2 = lbrace then
          (formatUsernameFuel value fuel rest2).map (fun t => lbrace :: t)
        else if leadsWith ("username\x7d".data) rest then
          (formatUsernameFuel value fuel (rest.drop 9)).map (fun t => value ++ t)
        else none
    else if c = rbrace then
      match rest with
      | [] => none
      | c2 :: rest2 =>
        if c2 = rbrace then
          (formatUsernameFuel value fuel rest2).map (fun t => rbrace :: t)
        else none
    else (formatUsernameFuel value fuel rest).map (fun t => c :: t)

/-- Python `tmpl.format(username=value)`: `some` resolved string when
formatting succeeds, `none` when `.format` raises. -/
def pyFormatUsername (tmpl value : String) : Option String :=
  (formatUsernameFuel value.data tmpl.data.length tmpl.data).map String.mk

/-- Outcomes of the external calls of the legacy worker: the RCON call,
whether `self.get_user` resolves the buyer, and whether the notification
DM succeeds (`discord_user.send` raises `Forbidden` when the buyer has
DMs disabled). -/
structure LegacyEnv where
  cmdOk : Bool
  userFound : Bool
  notifyOk : Bool
  now : Nat
  deriving Repr, DecidableEq

/-- Body of the per-purchase loop of `process_pending_purchases` in
discord_bot.py (lines 202-238).  A missing user or item hits `continue`,
leaving the row untouched (still `pending`).  A `None` command template
raises inside `.format`, and the per-purchase handler marks the row
`failed`; a template whose `.format(username=...)` raises (any
replacement field other than `\x7busername\x7d`, or a stray brace) is
caught by the same handler, which marks the row `failed` with no RCON
call made.  Otherwise the RCON call is made while the row is still
`pending` in the database; on success the row is set to `fulfilled` and
the buyer is notified - a notification exception is caught by the same
per-purchase handler, which then overwrites the status with `failed`.
No commit happens inside the loop. -/
def processPurchaseLegacy (env : LegacyEnv) (items : List ItemRec)
    (users : List UserRec) (p : PurchaseRec) : PurchaseRec × List Event :=
  match findUser users p.user_id, findItem items p.item_id with
  | some user, some item =>
    match item.minecraft_command_template with
    | none => ({ p with status := "failed" }, [])
    | some tmpl =>
      match pyFormatUsername tmpl (user.minecraft_uuid.getD user.username) with
      | none => ({ p with status := "failed" }, [])
      | some cmd =>
        if env.cmdOk then
          let p1 := { p with status := "fulfilled",
                             fulfilled_at := some env.now,
                             minecraft_command := some cmd }
          if env.userFound then
            if env.notifyOk then
              (p1, [Event.commandCall p.id cmd, Event.notifySend user.id])
            else
              ({ p1 with status := "failed" },
                [Event.commandCall p.id cmd, Event.notifySend user.id])
          else (p1, [Event.commandCall p.id cmd])
        else ({ p with status := "failed" }, [Event.commandCall p.id cmd])
  | _, _ => (p, [])

/-- One sweep of the legacy worker: processes every `pending` row with
no claim write, and issues a single commit after the loop. -/
def sweepLegacy (env : LegacyEnv) (items : List ItemRec)
    (users : List UserRec) (purchases : List PurchaseRec) : List PurchaseRec :=
  purchases.map (fun p =>
    if p.status == "pending" then (processPurchaseLegacy env items users p).1
    else p)

/-- The event trace of one legacy sweep: the per-purchase events in
order, then the single end-of-sweep commit. -/
def sweepLegacyEvents (env : LegacyEnv) (items : List ItemRec)
    (users : List UserRec) (purchases : List PurchaseRec) : List Event :=
  purchases.foldr
    (fun p acc =>
      (if p.status == "pending" then (processPurchaseLegacy env items users p).2
       else []) ++ acc) [Event.sweepCommit]

/-! ### Remote-execution client (`src/minecraft_integration.py`) -/

/-- Outcome of one attempt against the external server: a successful
response, an `asyncio.TimeoutError` from `asyncio.wait_for`, or any
other exception from the connection. -/
inductive CallOutcome (α : Type) where
  | ok (a : α)
  | timeout
  | error (msg : String)
  deriving Repr, DecidableEq

/-- The payload of a successful `server.status()` response. -/
structure StatusInfo where
  players_online : Nat
  max_players : Nat
  version : String
  latency : Int
  deriving Repr, DecidableEq

/-- The dictionary `get_server_status` returns to its caller. -/
structure StatusResult where
  online : Bool
  players_online : Option Nat
  max_players : Option Nat
  version : Option String
  latency : Option Int
  error : Option String
  deriving Repr, DecidableEq

/-- The `timeout=10.0` bound `get_server_status` passes to
`asyncio.wait_for` (minecraft_integration.py line 44). -/
def STATUS_TIMEOUT_SECONDS : Nat := 10

/-- The `timeout=30.0` bound `execute_command` passes to
`asyncio.wait_for` (minecraft_integration.py line 152). -/
def COMMAND_TIMEOUT_SECONDS : Nat := 30

/-- `get_server_status` (minecraft_integration.py lines 23-73) as a
total function of the attempt outcome: a timeout or any other exception
is caught and converted into a dictionary with `online: False`.
Totality of this Lean function is the formal counterpart of the fact
that the Python function never lets an exception reach its caller. -/
def get_server_status : CallOutcome StatusInfo → StatusResult
  | .ok s =>
    { online := true, players_online := some s.players_online,
      max_players := some s.max_players, version := some s.version,
      latency := some s.latency, error := none }
  | .timeout =>
    { online := false, players_online := none, max_players := none,
      version := none, latency := none, error := some "Timeout" }
  | .error e =>
    { online := false, players_online := none, max_players := none,
      version := none, latency := none, error := some e }

/-- `execute_command` (minecraft_integration.py lines 127-164) as a
total function: a missing RCON password returns `false` immediately; a
timeout or any exception from the RCON session is caught and returns
`false`; only a completed command returns `true`.  Never raises. -/
def execute_command (passwordConfigured : Bool)
    (outcome : CallOutcome String) : Bool :=
  if !passwordConfigured then false
  else
    match outcome with
    | .ok _ => true
    | .timeout => false
    | .error _ => false

/-! ### Ledger, balances and the synchronous command surface -/

/-- The committed database state seen by the synchronous commands:
`coins` is the coins column of the users table (a user with no row, or a
freshly created row, has balance 0, the column default), `transactions`
is the transactions table (newest first), `purchases` and `gifts` are
the corresponding tables, and the `next` counters model the
auto-incremented primary keys handed out at flush time. -/
structure Store where
  coins : Nat → Int
  transactions : List Txn
  purchases : List PurchaseRec
  gifts : List GiftRec
  nextPurchaseId : Nat
  nextGiftId : Nat

/-- Sum of the amounts of all committed transactions of one user. -/
def txnSum (ts : List Txn) (uid : Nat) : Int :=
  ts.foldr (fun t acc => (if t.user_id = uid then t.amount else 0) + acc) 0

/-- The accounting invariant of the spec: every cached balance equals
the sum of the ledger amounts for that user. -/
def BalanceInvariant (s : Store) : Prop :=
  ∀ uid, s.coins uid = txnSum s.transactions uid

/-- Point update of the coins column. -/
def setBal (f : Nat → Int) (uid : Nat) (v : Int) : Nat → Int :=
  fun u => if u = uid then v else f u

/-- The message-earn award path of `process_coin_earning`
(discord_bot_slash.py lines 74-151), parameterised by the configuration
values and the already-computed cooldown and daily-total reads: when the
cooldown has passed and the daily cap is not reached, the award
`min(coins_per_message, max_daily_coins - today_earnings)` is added to
the balance and one `earn` transaction with the same amount is committed
with it; otherwise nothing changes. -/
def process_coin_earning (s : Store) (uid : Nat) (cooldownPassed : Bool)
    (todayEarnings coinsPerMessage maxDailyCoins : Int)
    (channel : String) : Store :=
  if !cooldownPassed then s
  else if todayEarnings ≥ maxDailyCoins then s
  else
    let award := min coinsPerMessage (maxDailyCoins - todayEarnings)
    let t : Txn :=
      { user_id := uid, transaction_type := "earn", amount := award,
        description := "Earned from message in #" ++ channel,
        reference_id := none }
    { s with coins := setBal s.coins uid (s.coins uid + award),
             transactions := t :: s.transactions }

/-- Synchronous reply of the buy command. -/
inductive BuyOutcome where
  | badQuantity
  | notFound
  | insufficientCoins
  | ok (newBalance : Int)
  deriving Repr, DecidableEq

/-- `buy_command` (discord_bot_slash.py lines 376-454), from the point
where the buyer row `uid` is resolved (a buyer with no row gets a reply
and no state change).  Checks, in source order: positive quantity, item
availability, sufficient balance; every rejection leaves the store
untouched.  On success the debit, the pending purchase and the single
`purchase` transaction are one commit.  The transaction object is built
before `db.session.add`/`commit`, so its `reference_id` interpolates the
still-unflushed primary key `purchase.id`, which is `None`. -/
def buy_command (s : Store) (uid : Nat) (item : ItemRec)
    (quantity : Int) : BuyOutcome × Store :=
  if quantity ≤ 0 then (.badQuantity, s)
  else if !item.is_available then (.notFound, s)
  else
    let total_cost := item.price * quantity
    if s.coins uid < total_cost then (.insufficientCoins, s)
    else
      let purchase0 : PurchaseRec :=
        { id := none, user_id := uid, item_id := item.id,
          quantity := quantity, total_cost := total_cost,
          status := "pending", fulfilled_at := none,
          minecraft_command := none, discord_role_assigned := false }
      let t : Txn :=
        { user_id := uid, transaction_type := "purchase",
          amount := -total_cost,
          description := "Purchased " ++ toString quantity ++ "x " ++ item.name,
          reference_id := some ("purchase_" ++ pyStr purchase0.id) }
      (.ok (s.coins uid - total_cost),
        { s with
          coins := setBal s.coins uid (s.coins uid - total_cost),
          purchases :=
            { purchase0 with id := some s.nextPurchaseId } :: s.purchases,
          transactions := t :: s.transactions,
          nextPurchaseId := s.nextPurchaseId + 1 })

/-- Synchronous reply of the gift command. -/
inductive GiftOutcome where
  | badAmount
  | selfGift
  | insufficientCoins
  | ok (senderBalance : Int)
  deriving Repr, DecidableEq

/-- `gift_command` (discord_bot_slash.py lines 507-604), from the point
where the sender row `sUid` is resolved.  Checks, in source order:
positive amount, recipient distinct from sender, sufficient sender
balance; every rejection leaves the store untouched.  On success the
gift row, the sender debit, the recipient credit and both transactions
(`gift_sent` and `gift_received`) are one commit; both reference strings
interpolate the unflushed `gift.id`, which is `None`.  A recipient with
no row is created with the default balance 0, which the coins column
model already gives. -/
def gift_command (s : Store) (sUid rUid : Nat) (amount : Int)
    (message : Option String) (sName rName : String)
    (now : Nat) : GiftOutcome × Store :=
  if amount ≤ 0 then (.badAmount, s)
  else if sUid = rUid then (.selfGift, s)
  else if s.coins sUid < amount then (.insufficientCoins, s)
  else
    let gift0 : GiftRec :=
      { id := none, sender_id := sUid, recipient_id := rUid,
        amount := amount, message := message, status := "completed",
        processed_at := some now }
    let tS : Txn :=
      { user_id := sUid, transaction_type := "gift_sent",
        amount := -amount, description := "Gift sent to " ++ rName,
        reference_id := some ("gift_" ++ pyStr gift0.id) }
    let tR : Txn :=
      { user_id := rUid, transaction_type := "gift_received",
        amount := amount, description := "Gift received from " ++ sName,
        reference_id := some ("gift_" ++ pyStr gift0.id) }
    (.ok (s.coins sUid - amount),
      { s with
        coins := setBal (setBal s.coins sUid (s.coins sUid - amount))
          rUid (s.coins rUid + amount),
        gifts := { gift0 with id := some s.nextGiftId } :: s.gifts,
        transactions := tR :: tS :: s.transactions,
        nextGiftId := s.nextGiftId + 1 })

/-- HTTP reply of the administrative coin-adjustment endpoint.  The
source handler can only answer 200 (`ok`) or 500 (`internalError`).
The constructor `insufficientFunds` is the distinct rejection the spec
postulates for an overdraft; it is declared so the spec claim can be
stated, and no run of the embedded handler ever produces it. -/
inductive ApiResult where
  | ok (newBalance : Int)
  | insufficientFunds
  | internalError
  deriving Repr, DecidableEq

/-- `update_user_coins` (routes/api.py lines 57-88): no pre-check of any
kind - the handler adds `amount` to the balance and builds one
transaction (`admin_add` for a positive amount, `admin_remove`
otherwise), then commits.  When the updated row would violate the
`check_coins_non_negative` constraint of the users table
(database.py lines 28-30), the commit raises, the bare `except` answers
HTTP 500 `Internal server error`, and the database transaction rolls
back, so the committed store is unchanged. -/
def update_user_coins (s : Store) (uid : Nat) (amount : Int)
    (description : String) : ApiResult × Store :=
  let newCoins := s.coins uid + amount
  let t : Txn :=
    { user_id := uid,
      transaction_type := if amount > 0 then "admin_add" else "admin_remove",
      amount := amount, description := description, reference_id := none }
  if newCoins < 0 then (.internalError, s)
  else
    (.ok newCoins,
      { s with coins := setBal s.coins uid newCoins,
               transactions := t :: s.transactions })

/-! ### Concrete fixtures used by witnesses and counterexamples -/

/-- An empty committed database. -/
def store0 : Store :=
  { coins := fun _ => 0, transactions := [], purchases := [], gifts := [],
    nextPurchaseId := 1, nextGiftId := 1 }

/-- A database whose only balance is 50 coins for user 1, backed by one
earn entry of 50. -/
def store50 : Store :=
  { coins := fun u => if u = 1 then 50 else 0,
    transactions := [{ user_id := 1, transaction_type := "earn", amount := 50,
                       description := "seed", reference_id := none }],
    purchases := [], gifts := [], nextPurchaseId := 1, nextGiftId := 1 }

/-- A shop item priced 200, fulfilled by a Minecraft command. -/
def itemPriced200 : ItemRec :=
  { id := 3, name := "Elytra", price := 200, category := "gear",
    item_type := "minecraft", discord_role_id := none,
    minecraft_command_template := some "give \x7busername\x7d elytra 1",
    is_available := true }

/-- A shop item priced 50, fulfilled by a Minecraft command. -/
def itemPriced50 : ItemRec :=
  { id := 4, name := "Diamond Sword", price := 50, category := "gear",
    item_type := "minecraft", discord_role_id := none,
    minecraft_command_template := some "give \x7busername\x7d diamond_sword 1",
    is_available := true }

/-- A buyer with no linked Minecraft UUID. -/
def alice : UserRec :=
  { id := 7, discord_id := "42", username := "alice", minecraft_uuid := none }

/-- A pending purchase of `itemPriced50` by `alice`, as `buy_command`
creates it. -/
def pendingPurchase : PurchaseRec :=
  { id := some 1, user_id := 7, item_id := 4, quantity := 1,
    total_cost := 50, status := "pending", fulfilled_at := none,
    minecraft_command := none, discord_role_assigned := false }

/-- An item requiring both a Discord role grant and a Minecraft
command. -/
def itemBoth : ItemRec :=
  { id := 9, name := "VIP", price := 100, category := "ranks",
    item_type := "both", discord_role_id := some "555",
    minecraft_command_template := some "lp user \x7busername\x7d parent set vip",
    is_available := true }

/-- A pending purchase of `itemBoth` by `alice`. -/
def purchaseVip : PurchaseRec :=
  { id := some 2, user_id := 7, item_id := 9, quantity := 1,
    total_cost := 100, status := "pending", fulfilled_at := none,
    minecraft_command := none, discord_role_assigned := false }

/-! ### Helper lemmas about the ledger model -/

theorem txnSum_cons (t : Txn) (ts : List Txn) (uid : Nat) :
    txnSum (t :: ts) uid
      = (if t.user_id = uid then t.amount else 0) + txnSum ts uid := rfl

/-- Appending one transaction and moving its user balance by its amount
preserves the accounting invariant pointwise. -/
theorem invariant_step (s : Store) (h : BalanceInvariant s) (t : Txn)
    (v : Int) (hv : v = s.coins t.user_id + t.amount) :
    ∀ u, setBal s.coins t.user_id v u = txnSum (t :: s.transactions) u := by
  intro u
  rw [txnSum_cons]
  by_cases hu : u = t.user_id
  · rw [hu]
    have hc := h t.user_id
    simp only [setBal, eq_self_iff_true, if_true]
    omega
  · have hc := h u
    simp only [setBal, if_neg hu,
      if_neg (fun hh : t.user_id = u => hu hh.symm)]
    omega

/-- Appending two transactions for two distinct users and moving both
balances by the respective amounts preserves the invariant pointwise. -/
theorem invariant_step2 (s : Store) (h : BalanceInvariant s) (tS tR : Txn)
    (hne : tS.user_id ≠ tR.user_id) (vS vR : Int)
    (hvS : vS = s.coins tS.user_id + tS.amount)
    (hvR : vR = s.coins tR.user_id + tR.amount) :
    ∀ u, setBal (setBal s.coins tS.user_id vS) tR.user_id vR u
      = txnSum (tR :: tS :: s.transactions) u := by
  intro u
  rw [txnSum_cons, txnSum_cons]
  by_cases hR : u = tR.user_id
  · rw [hR]
    have hc := h tR.user_id
    simp only [setBal, eq_self_iff_true, if_true,
      if_neg (fun hh : tS.user_id = tR.user_id => hne hh)]
    omega
  · by_cases hS : u = tS.user_id
    · rw [hS]
      have hc := h tS.user_id
      simp only [setBal, eq_self_iff_true, if_true,
        if_neg (fun hh : tS.user_id = tR.user_id => hne hh),
        if_neg (fun hh : tR.user_id = tS.user_id => hne hh.symm)]
      omega
    · have hc := h u
      simp only [setBal, if_neg hR, if_neg hS,
        if_neg (fun hh : tR.user_id = u => hR hh.symm),
        if_neg (fun hh : tS.user_id = u => hS hh.symm)]
      omega


/-! ### Claims C9, C8, C10, C2, C1 -/

/-- Boolean test for the successful buy reply. -/
def BuyOutcome.isOk : BuyOutcome → Bool
  | .ok _ => true
  | _ => false

/-- Claim C9: the remote-execution client converts every timeout and
every connection failure into a plain value - `online=false` for the
status query and `false` for command execution - and, being a total
function of the call outcome, never propagates an exception; the bounds
passed to `asyncio.wait_for` are 10 seconds for the status query and 30
seconds for command execution. -/
theorem C9_remote_client_total :
    (get_server_status CallOutcome.timeout).online = false
    ∧ (∀ e : String, (get_server_status (CallOutcome.error e)).online = false)
    ∧ (∀ pc : Bool, execute_command pc CallOutcome.timeout = false)
    ∧ (∀ (pc : Bool) (e : String), execute_command pc (CallOutcome.error e) = false)
    ∧ STATUS_TIMEOUT_SECONDS = 10 ∧ COMMAND_TIMEOUT_SECONDS = 30 := by
  refine ⟨rfl, fun e => rfl, fun pc => ?_, fun pc e => ?_, rfl, rfl⟩
  · cases pc <;> rfl
  · cases pc <;> rfl

/-- Claim C8: a buy request by a buyer whose balance is strictly below
price times quantity is rejected before any debit - the committed store
(balance, purchase table and transaction table) is exactly the input
store, and the reply is not a success. -/
theorem C8_insufficient_buy_rejected (s : Store) (uid : Nat)
    (item : ItemRec) (quantity : Int)
    (h : s.coins uid < item.price * quantity) :
    (buy_command s uid item quantity).2 = s
    ∧ ((buy_command s uid item quantity).1).isOk = false := by
  unfold buy_command
  by_cases hq : quantity ≤ 0
  · simp [hq, BuyOutcome.isOk]
  · by_cases hav : item.is_available
    · simp [hq, hav, h, BuyOutcome.isOk]
    · simp [hq, hav, BuyOutcome.isOk]

/-- Witness for C8: user 1 holds 50 coins and attempts to buy an item
priced 200; the request is rejected and the store is unchanged. -/
theorem C8_witness :
    store50.coins 1 < itemPriced200.price * 1
    ∧ (buy_command store50 1 itemPriced200 1).2 = store50
    ∧ ((buy_command store50 1 itemPriced200 1).1).isOk = false := by
  have h : store50.coins 1 < itemPriced200.price * 1 := by decide
  exact ⟨h, (C8_insufficient_buy_rejected store50 1 itemPriced200 1 h).1,
    (C8_insufficient_buy_rejected store50 1 itemPriced200 1 h).2⟩

/-- Claim C10: on a successful buy, the single transaction committed
with the purchase stores the reference string built from the unflushed
primary key - literally "purchase_None"; on a successful gift, both
transactions store "gift_None". -/
theorem C10_reference_id_literal_none (s : Store) (uid : Nat)
    (item : ItemRec) (q : Int) (sUid rUid : Nat) (a : Int)
    (m : Option String) (sn rn : String) (now : Nat)
    (hq : ¬ q ≤ 0) (hav : item.is_available = true)
    (hc : ¬ s.coins uid < item.price * q)
    (ha : ¬ a ≤ 0) (hne : sUid ≠ rUid) (hsc : ¬ s.coins sUid < a) :
    ((buy_command s uid item q).2.transactions.head?.map Txn.reference_id)
      = some (some "purchase_None")
    ∧ (((gift_command s sUid rUid a m sn rn now).2.transactions.take 2).map
        Txn.reference_id) = [some "gift_None", some "gift_None"] := by
  constructor
  · simp [buy_command, hq, hav, hc, pyStr]
  · simp [gift_command, ha, hne, hsc, pyStr]

/-- Witness for C10: a buy of the 50-coin item by user 1 (balance 50)
and a gift of 30 coins from user 1 to user 2 both record the degenerate
reference strings. -/
theorem C10_witness :
    (¬ (1 : Int) ≤ 0) ∧ itemPriced50.is_available = true
    ∧ (¬ store50.coins 1 < itemPriced50.price * 1)
    ∧ (¬ (30 : Int) ≤ 0) ∧ (1 : Nat) ≠ 2 ∧ (¬ store50.coins 1 < 30)
    ∧ ((buy_command store50 1 itemPriced50 1).2.transactions.head?.map
        Txn.reference_id) = some (some "purchase_None")
    ∧ (((gift_command store50 1 2 30 none "alice" "bob" 9).2.transactions.take 2).map
        Txn.reference_id) = [some "gift_None", some "gift_None"] := by
  have h := C10_reference_id_literal_none store50 1 itemPriced50 1 1 2 30
    none "alice" "bob" 9 (by decide) (by decide) (by decide) (by decide)
    (by decide) (by decide)
  exact ⟨by decide, by decide, by decide, by decide, by decide, by decide,
    h.1, h.2⟩

/-- Claim C2 counterexample: an administrative adjustment of -5 against
a zero balance would make the balance negative, yet the handler answers
with the generic internal error (HTTP 500), not with an
insufficient-funds rejection - no `InsufficientFunds` signal exists on
this path; the committed store is unchanged only because the database
constraint aborts the commit. -/
theorem C2_counterexample :
    update_user_coins store0 7 (-5) "Admin adjustment"
      = (ApiResult.internalError, store0)
    ∧ ApiResult.internalError ≠ ApiResult.insufficientFunds := by
  constructor
  · have h : store0.coins 7 + (-5) < 0 := by decide
    simp [update_user_coins, h]
  · decide

/-- Claim C2, amended: the buy and gift paths pre-check the balance, but
the administrative adjustment does not - on an overdraft it answers with
the generic internal error and the commit is rolled back by the
`check_coins_non_negative` constraint, leaving the committed balance and
transaction log unchanged; the endpoint never answers with an
insufficient-funds rejection, and it never commits a negative balance
when all balances were non-negative. -/
theorem C2_admin_overdraft_behavior (s : Store) (uid : Nat)
    (amount : Int) (d : String) (h : s.coins uid + amount < 0) :
    update_user_coins s uid amount d = (ApiResult.internalError, s)
    ∧ (∀ (u2 : Nat) (a2 : Int) (d2 : String),
        (update_user_coins s u2 a2 d2).1 ≠ ApiResult.insufficientFunds)
    ∧ (∀ (u2 : Nat) (a2 : Int) (d2 : String),
        (∀ v, 0 ≤ s.coins v) →
        ∀ v, 0 ≤ (update_user_coins s u2 a2 d2).2.coins v) := by
  refine ⟨by simp [update_user_coins, h], ?_, ?_⟩
  · intro u2 a2 d2
    unfold update_user_coins
    by_cases h2 : s.coins u2 + a2 < 0
    · simp [h2]
    · simp [h2]
  · intro u2 a2 d2 h0 v
    unfold update_user_coins
    by_cases h2 : s.coins u2 + a2 < 0
    · simpa [h2] using h0 v
    · by_cases hv : v = u2
      · simp [h2, setBal, hv]
        omega
      · simpa [h2, setBal, hv] using h0 v

/-- Witness for C2 (amended): the concrete overdraft of -5 against the
empty store exercises the theorem. -/
theorem C2_witness :
    store0.coins 7 + (-5) < 0
    ∧ update_user_coins store0 7 (-5) "Admin adjustment"
        = (ApiResult.internalError, store0)
    ∧ (update_user_coins store0 7 (-5) "Admin adjustment").1
        ≠ ApiResult.insufficientFunds := by
  have h : store0.coins 7 + (-5) < 0 := by decide
  exact ⟨h, (C2_admin_overdraft_behavior store0 7 (-5) "Admin adjustment" h).1,
    (C2_admin_overdraft_behavior store0 7 (-5) "Admin adjustment" h).2.1 7 (-5)
      "Admin adjustment"⟩

/-- Claim C1: every balance-mutating operation of the system - the
message-earn award, the buy command, the gift transfer and the
administrative adjustment - changes the cached balance and the
transaction table in one atomic commit that keeps every user balance
equal to the sum of that user ledger amounts. -/
theorem C1_balance_equals_ledger_sum (s : Store) (h : BalanceInvariant s) :
    (∀ uid cool today perMsg cap ch,
      BalanceInvariant (process_coin_earning s uid cool today perMsg cap ch))
    ∧ (∀ uid item q, BalanceInvariant (buy_command s uid item q).2)
    ∧ (∀ sUid rUid a m sn rn now,
        BalanceInvariant (gift_command s sUid rUid a m sn rn now).2)
    ∧ (∀ uid a d, BalanceInvariant (update_user_coins s uid a d).2) := by
  refine ⟨?_, ?_, ?_, ?_⟩
  · intro uid cool today perMsg cap ch
    unfold process_coin_earning
    split_ifs with h1 h2
    · exact h
    · exact h
    · intro u
      exact invariant_step s h ⟨uid, "earn", _, _, none⟩ _ rfl u
  · intro uid item q
    simp only [buy_command]
    split_ifs with h1 h2 h3
    · exact h
    · exact h
    · exact h
    · intro u
      exact invariant_step s h ⟨uid, "purchase", _, _, _⟩ _ rfl u
  · intro sUid rUid a m sn rn now
    simp only [gift_command]
    split_ifs with h1 h2 h3
    · exact h
    · exact h
    · exact h
    · intro u
      exact invariant_step2 s h ⟨sUid, "gift_sent", _, _, _⟩
        ⟨rUid, "gift_received", _, _, _⟩ h2 _ _ rfl rfl u
  · intro uid a d
    simp only [update_user_coins]
    split_ifs with h1 h2
    · exact h
    · intro u
      exact invariant_step s h ⟨uid, _, _, _, none⟩ _ rfl u
    · intro u
      exact invariant_step s h ⟨uid, _, _, _, none⟩ _ rfl u

/-- Witness for C1: the seeded store (user 1 holds 50 coins, backed by
one earn entry of 50) satisfies the invariant, and so does the store
after a successful buy of the 50-coin item, which debits the balance
and appends the paired purchase transaction in the same commit. -/
theorem C1_witness :
    BalanceInvariant store50
    ∧ BalanceInvariant (buy_command store50 1 itemPriced50 1).2
    ∧ ((buy_command store50 1 itemPriced50 1).1).isOk = true := by
  have h0 : BalanceInvariant store50 := by
    intro uid
    by_cases h : uid = 1
    · simp [store50, txnSum, h]
    · simp [store50, txnSum, h, Ne.symm h]
  exact ⟨h0, (C1_balance_equals_ledger_sum store50 h0).2.1 1 itemPriced50 1,
    by decide⟩


/-! ### Helper lemmas about the fulfillment workers -/

/-- `fulfill_purchase` makes role and command calls only: it never
commits and never notifies. -/
theorem claimCommit_not_in_fulfill (env : SlashEnv) (purchase : PurchaseRec)
    (item : ItemRec) (user : UserRec) (pid : Option Nat) :
    Event.claimCommit pid ∉ (fulfill_purchase env purchase item user).2.2 := by
  unfold fulfill_purchase execute_minecraft_command
  cases requiresRole item <;> cases requiresCommand item <;>
    cases env.roleOk <;> cases env.cmdOk <;> simp

/-- `fulfill_purchase` never sends a notification DM. -/
theorem notifySend_not_in_fulfill (env : SlashEnv) (purchase : PurchaseRec)
    (item : ItemRec) (user : UserRec) (u : Nat) :
    Event.notifySend u ∉ (fulfill_purchase env purchase item user).2.2 := by
  unfold fulfill_purchase execute_minecraft_command
  cases requiresRole item <;> cases requiresCommand item <;>
    cases env.roleOk <;> cases env.cmdOk <;> simp

/-- The trace of the slash worker for one purchase starts with the
committed claim write, before any other event. -/
theorem processPurchaseSlash_trace_head (env : SlashEnv)
    (items : List ItemRec) (users : List UserRec) (p : PurchaseRec) :
    ∃ rest, (processPurchaseSlash env items users p).2
      = Event.claimCommit p.id :: rest := by
  unfold processPurchaseSlash
  rcases findItem items p.item_id with _ | item
  · exact ⟨_, rfl⟩
  · rcases findUser users p.user_id with _ | user
    · exact ⟨_, rfl⟩
    · exact ⟨_, rfl⟩

/-- A claim event in the slash trace of one purchase can only belong to
that purchase. -/
theorem claimCommit_in_processSlash (env : SlashEnv) (items : List ItemRec)
    (users : List UserRec) (p : PurchaseRec) (pid : Option Nat)
    (h : Event.claimCommit pid ∈ (processPurchaseSlash env items users p).2) :
    pid = p.id := by
  unfold processPurchaseSlash at h
  rcases hI : findItem items p.item_id with _ | item <;>
    simp only [hI] at h
  · simp at h
    exact h
  · rcases hU : findUser users p.user_id with _ | user <;>
      simp only [hU] at h
    · simp at h
      exact h
    · rcases List.mem_cons.mp h with h1 | h2
      · cases h1
        rfl
      · rcases List.mem_append.mp h2 with h3 | h4
        · exact absurd h3 (claimCommit_not_in_fulfill env _ item user pid)
        · simp at h4

/-- The slash worker never sends a notification DM in a purchase
trace. -/
theorem notifySend_not_in_processSlash (env : SlashEnv)
    (items : List ItemRec) (users : List UserRec) (p : PurchaseRec)
    (u : Nat) :
    Event.notifySend u ∉ (processPurchaseSlash env items users p).2 := by
  unfold processPurchaseSlash
  rcases hI : findItem items p.item_id with _ | item
  · simp
  · rcases hU : findUser users p.user_id with _ | user
    · simp
    · intro h
      rcases List.mem_cons.mp h with h1 | h2
      · cases h1
      · rcases List.mem_append.mp h2 with h3 | h4
        · exact notifySend_not_in_fulfill env _ item user u h3
        · simp at h4

/-- Every claim write of a slash sweep belongs to a purchase that was
in `pending` when the sweep selected its rows. -/
theorem claim_only_for_pending (env : SlashEnv) (items : List ItemRec)
    (users : List UserRec) (pid : Option Nat) :
    ∀ purchases : List PurchaseRec,
      Event.claimCommit pid ∈ sweepSlashEvents env items users purchases →
      ∃ q, q ∈ purchases ∧ q.status = "pending" ∧ q.id = pid := by
  intro ps
  induction ps with
  | nil => intro h; simp [sweepSlashEvents] at h
  | cons q qs ih =>
    intro h
    rcases List.mem_append.mp h with h1 | h2
    · by_cases hq : q.status == "pending"
      · rw [if_pos hq] at h1
        have hpid := claimCommit_in_processSlash env items users q pid h1
        exact ⟨q, List.mem_cons_self q qs, by simpa using hq, hpid.symm⟩
      · rw [if_neg hq] at h1
        simp at h1
    · obtain ⟨q2, hq2, hrest⟩ := ih h2
      exact ⟨q2, List.mem_cons_of_mem q hq2, hrest⟩


/-! ### Claims C3, C4, C5, C6, C7 -/

/-- Claim C3 counterexample: purchase of a both-kind item where the
role grant succeeds and the remote command fails - the purchase settles
`failed` and the granted role is kept, but the resolved command string
is NOT recorded: `minecraft_command` stays `None`, contradicting the
claim that it is recorded even though the command failed
(`execute_minecraft_command` stores it only under `if success:`). -/
theorem C3_counterexample :
    (processPurchaseSlash ⟨true, false, 5⟩ [itemBoth] [alice] purchaseVip).1.status
      = "failed"
    ∧ (processPurchaseSlash ⟨true, false, 5⟩ [itemBoth] [alice]
        purchaseVip).1.discord_role_assigned = true
    ∧ (processPurchaseSlash ⟨true, false, 5⟩ [itemBoth] [alice]
        purchaseVip).1.minecraft_command = none
    ∧ (processPurchaseSlash ⟨true, false, 5⟩ [itemBoth] [alice]
        purchaseVip).1.minecraft_command
      ≠ some "lp user alice parent set vip" := by
  refine ⟨by decide, by decide, by decide, by decide⟩

/-- Claim C3, amended: on a both-kind purchase where the role grant
succeeds and the remote command fails, the purchase settles `failed`
and `discord_role_assigned` remains true (the role is not revoked), but
the resolved command is not recorded - `minecraft_command` keeps its
prior value, because the worker stores it only when execution
succeeded. -/
theorem C3_role_kept_command_not_recorded (env : SlashEnv)
    (items : List ItemRec) (users : List UserRec) (p : PurchaseRec)
    (item : ItemRec) (user : UserRec)
    (hI : findItem items p.item_id = some item)
    (hU : findUser users p.user_id = some user)
    (hr : requiresRole item = true) (hc : requiresCommand item = true)
    (hro : env.roleOk = true) (hco : env.cmdOk = false) :
    (processPurchaseSlash env items users p).1.status = "failed"
    ∧ (processPurchaseSlash env items users p).1.discord_role_assigned = true
    ∧ (processPurchaseSlash env items users p).1.minecraft_command
        = p.minecraft_command := by
  unfold processPurchaseSlash fulfill_purchase execute_minecraft_command
  simp [hI, hU, hr, hc, hro, hco]

/-- Witness for C3 (amended): the concrete both-kind purchase of
`itemBoth` with a successful role grant and a failed command. -/
theorem C3_witness :
    findItem [itemBoth] purchaseVip.item_id = some itemBoth
    ∧ findUser [alice] purchaseVip.user_id = some alice
    ∧ requiresRole itemBoth = true ∧ requiresCommand itemBoth = true
    ∧ (processPurchaseSlash ⟨true, false, 5⟩ [itemBoth] [alice]
        purchaseVip).1.status = "failed"
    ∧ (processPurchaseSlash ⟨true, false, 5⟩ [itemBoth] [alice]
        purchaseVip).1.minecraft_command = purchaseVip.minecraft_command := by
  have h := C3_role_kept_command_not_recorded ⟨true, false, 5⟩ [itemBoth]
    [alice] purchaseVip itemBoth alice (by decide) (by decide) (by decide)
    (by decide) rfl rfl
  exact ⟨by decide, by decide, by decide, by decide, h.1, h.2.2⟩

/-- Claim C4 counterexample: the legacy worker of discord_bot.py makes
the external RCON call while the purchase is still `pending` - its
sweep trace for the purchase with primary key 1 contains the command
call and the single end-of-sweep commit, and no `processing` claim
write at all. -/
theorem C4_counterexample :
    sweepLegacyEvents ⟨true, false, true, 5⟩ [itemPriced50] [alice]
        [pendingPurchase]
      = [Event.commandCall (some 1) "give alice diamond_sword 1",
         Event.sweepCommit]
    ∧ Event.claimCommit (some 1) ∉
        sweepLegacyEvents ⟨true, false, true, 5⟩ [itemPriced50] [alice]
          [pendingPurchase] := by
  refine ⟨by decide, by decide⟩

/-- Claim C4, amended: in the slash-bot worker the `pending ->
processing` claim is written and committed before any external call
(it is the first event of the purchase trace) and a claim is only ever
written for a purchase whose status was `pending` when the sweep
selected its rows; the legacy worker of discord_bot.py writes no claim
at all - it calls the game server while the purchase is still
`pending` and commits only once at the end of the sweep. -/
theorem C4_claim_first_and_only_pending (env : SlashEnv)
    (items : List ItemRec) (users : List UserRec) (p : PurchaseRec)
    (purchases : List PurchaseRec) (pid : Option Nat)
    (hmem : Event.claimCommit pid ∈ sweepSlashEvents env items users purchases) :
    ((processPurchaseSlash env items users p).2).head?
      = some (Event.claimCommit p.id)
    ∧ purchases.any
        (fun q => q.status == "pending" && decide (q.id = pid)) = true := by
  constructor
  · obtain ⟨rest, hr⟩ := processPurchaseSlash_trace_head env items users p
    rw [hr]
    rfl
  · obtain ⟨q, hq, hst, hid⟩ :=
      claim_only_for_pending env items users pid purchases hmem
    exact List.any_eq_true.mpr ⟨q, hq, by simp [hst, hid]⟩

/-- Witness for C4 (amended): a sweep over the single pending purchase
writes its claim first, and the claim belongs to that pending row. -/
theorem C4_witness :
    Event.claimCommit (some 1) ∈
      sweepSlashEvents ⟨true, true, 5⟩ [itemPriced50] [alice] [pendingPurchase]
    ∧ ((processPurchaseSlash ⟨true, true, 5⟩ [itemPriced50] [alice]
          pendingPurchase).2).head? = some (Event.claimCommit (some 1))
    ∧ [pendingPurchase].any
        (fun q => q.status == "pending" && decide (q.id = some 1)) = true := by
  have hmem : Event.claimCommit (some 1) ∈
      sweepSlashEvents ⟨true, true, 5⟩ [itemPriced50] [alice] [pendingPurchase] := by
    decide
  have h := C4_claim_first_and_only_pending ⟨true, true, 5⟩ [itemPriced50]
    [alice] pendingPurchase [pendingPurchase] (some 1) hmem
  exact ⟨hmem, h.1, h.2⟩

/-- Claim C5: the slash worker settles a purchase `fulfilled` (stamping
`fulfilled_at`) exactly when every side effect required by the item
kind succeeded, and when the item requires both side effects the
command call is still made even though the role grant already failed -
both calls appear in the trace for every outcome combination. -/
theorem C5_fulfilled_iff_all_required_succeed (env : SlashEnv)
    (items : List ItemRec) (users : List UserRec) (p : PurchaseRec)
    (item : ItemRec) (user : UserRec)
    (hI : findItem items p.item_id = some item)
    (hU : findUser users p.user_id = some user) :
    ((processPurchaseSlash env items users p).1.status = "fulfilled"
      ↔ ((requiresRole item = true → env.roleOk = true)
         ∧ (requiresCommand item = true → env.cmdOk = true)))
    ∧ ((processPurchaseSlash env items users p).1.status = "fulfilled" →
        (processPurchaseSlash env items users p).1.fulfilled_at = some env.now)
    ∧ (requiresRole item = true → requiresCommand item = true →
        Event.roleCall p.id ∈ (processPurchaseSlash env items users p).2
        ∧ Event.commandCall p.id
            (resolveCommand (item.minecraft_command_template.getD "") user)
          ∈ (processPurchaseSlash env items users p).2) := by
  unfold processPurchaseSlash fulfill_purchase execute_minecraft_command
  cases hr : requiresRole item <;> cases hc : requiresCommand item <;>
    cases hro : env.roleOk <;> cases hco : env.cmdOk <;>
      simp [hI, hU, hr, hc, hro, hco]

/-- Witness for C5: for the both-kind item with the role grant failing
and the command succeeding, the purchase is not `fulfilled` and both
external calls were still made. -/
theorem C5_witness :
    findItem [itemBoth] purchaseVip.item_id = some itemBoth
    ∧ findUser [alice] purchaseVip.user_id = some alice
    ∧ ¬ (processPurchaseSlash ⟨false, true, 5⟩ [itemBoth] [alice]
          purchaseVip).1.status = "fulfilled"
    ∧ Event.roleCall (some 2) ∈
        (processPurchaseSlash ⟨false, true, 5⟩ [itemBoth] [alice] purchaseVip).2
    ∧ Event.commandCall (some 2)
        (resolveCommand (itemBoth.minecraft_command_template.getD "") alice) ∈
        (processPurchaseSlash ⟨false, true, 5⟩ [itemBoth] [alice] purchaseVip).2 := by
  have h := C5_fulfilled_iff_all_required_succeed ⟨false, true, 5⟩ [itemBoth]
    [alice] purchaseVip itemBoth alice (by decide) (by decide)
  have hcalls := h.2.2 (by decide) (by decide)
  refine ⟨by decide, by decide, ?_, hcalls.1, hcalls.2⟩
  intro hf
  have := (h.1.mp hf).1 (by decide)
  exact absurd this (by decide)

/-- Claim C6 counterexample: the legacy worker hits `continue` on a
purchase whose item row is missing - the purchase stays `pending`
(never transitioned to `failed`), and an identical second sweep selects
it again, so it is retried forever. -/
theorem C6_counterexample :
    sweepLegacy ⟨true, true, true, 5⟩ [] [alice] [pendingPurchase]
      = [pendingPurchase]
    ∧ pendingPurchase.status = "pending"
    ∧ sweepLegacy ⟨true, true, true, 5⟩ [] [alice]
        (sweepLegacy ⟨true, true, true, 5⟩ [] [alice] [pendingPurchase])
      = [pendingPurchase] := by
  refine ⟨by decide, by decide, by decide⟩

/-- Claim C6, amended: the slash worker transitions a pending purchase
with a missing user or item row directly to `failed` (never leaving it
in `pending` or `processing`); the legacy worker instead skips such a
purchase with `continue`, leaving it `pending`, so it is re-selected on
every subsequent sweep. -/
theorem C6_missing_row_fails_slash (env : SlashEnv) (items : List ItemRec)
    (users : List UserRec) (p : PurchaseRec)
    (h : findItem items p.item_id = none ∨ findUser users p.user_id = none) :
    (processPurchaseSlash env items users p).1.status = "failed" := by
  unfold processPurchaseSlash
  rcases h with h | h
  · simp [h]
  · rcases hI : findItem items p.item_id with _ | item
    · simp
    · simp [h]

/-- Witness for C6 (amended): the pending purchase whose item row is
absent is settled `failed` by the slash worker. -/
theorem C6_witness :
    (findItem [] pendingPurchase.item_id = none
      ∨ findUser [alice] pendingPurchase.user_id = none)
    ∧ (processPurchaseSlash ⟨true, true, 5⟩ [] [alice]
        pendingPurchase).1.status = "failed" := by
  have h : findItem [] pendingPurchase.item_id = none
      ∨ findUser [alice] pendingPurchase.user_id = none := Or.inl rfl
  exact ⟨h, C6_missing_row_fails_slash ⟨true, true, 5⟩ [] [alice]
    pendingPurchase h⟩

/-- Claim C7 counterexample: in the legacy worker the remote command
succeeds (all required side effects succeeded, the row is set to
`fulfilled` and `fulfilled_at` is stamped), but the notification DM
raises - the per-purchase exception handler then overwrites the status
with `failed`, so the notification failure did change the terminal
state. -/
theorem C7_counterexample :
    (processPurchaseLegacy ⟨true, true, false, 5⟩ [itemPriced50] [alice]
        pendingPurchase).1.status = "failed"
    ∧ (processPurchaseLegacy ⟨true, true, false, 5⟩ [itemPriced50] [alice]
        pendingPurchase).1.fulfilled_at = some 5
    ∧ Event.notifySend 7 ∈
        (processPurchaseLegacy ⟨true, true, false, 5⟩ [itemPriced50] [alice]
          pendingPurchase).2
    ∧ (processPurchaseLegacy ⟨true, true, false, 5⟩ [itemPriced50] [alice]
        pendingPurchase).1.status ≠ "fulfilled" := by
  refine ⟨by decide, by decide, by decide, by decide⟩

/-- Claim C7, amended: for a purchase whose command template resolves,
the legacy worker notifies the buyer after a successful fulfillment and
sends nothing when the command failed, but a notification failure is
caught by the per-purchase handler which then marks the purchase
`failed` (with `fulfilled_at` already stamped); the slash worker never
sends any buyer notification at all. -/
theorem C7_notification_behavior (envL : LegacyEnv) (items : List ItemRec)
    (users : List UserRec) (p : PurchaseRec) (item : ItemRec)
    (user : UserRec) (tmpl : String) (cmd : String)
    (hU : findUser users p.user_id = some user)
    (hI : findItem items p.item_id = some item)
    (ht : item.minecraft_command_template = some tmpl)
    (hres : pyFormatUsername tmpl (user.minecraft_uuid.getD user.username)
      = some cmd) :
    (envL.cmdOk = true → envL.userFound = true → envL.notifyOk = true →
      (processPurchaseLegacy envL items users p).1.status = "fulfilled"
      ∧ Event.notifySend user.id ∈ (processPurchaseLegacy envL items users p).2)
    ∧ (envL.cmdOk = true → envL.userFound = true → envL.notifyOk = false →
      (processPurchaseLegacy envL items users p).1.status = "failed"
      ∧ (processPurchaseLegacy envL items users p).1.fulfilled_at
          = some envL.now)
    ∧ (envL.cmdOk = false →
      (processPurchaseLegacy envL items users p).1.status = "failed"
      ∧ Event.notifySend user.id ∉ (processPurchaseLegacy envL items users p).2)
    ∧ (∀ (envS : SlashEnv) (u : Nat),
        Event.notifySend u ∉ (processPurchaseSlash envS items users p).2) := by
  refine ⟨?_, ?_, ?_, fun envS u => notifySend_not_in_processSlash envS items users p u⟩
  · intro h1 h2 h3
    unfold processPurchaseLegacy
    simp [hU, hI, ht, hres, h1, h2, h3]
  · intro h1 h2 h3
    unfold processPurchaseLegacy
    simp [hU, hI, ht, hres, h1, h2, h3]
  · intro h1
    unfold processPurchaseLegacy
    simp [hU, hI, ht, hres, h1]

/-- Witness for C7 (amended): the concrete fixtures (whose template
resolves to "give alice diamond_sword 1") exercise the
fulfilled-and-notified path. -/
theorem C7_witness :
    findUser [alice] pendingPurchase.user_id = some alice
    ∧ findItem [itemPriced50] pendingPurchase.item_id = some itemPriced50
    ∧ itemPriced50.minecraft_command_template
        = some "give \x7busername\x7d diamond_sword 1"
    ∧ pyFormatUsername "give \x7busername\x7d diamond_sword 1"
        (alice.minecraft_uuid.getD alice.username)
      = some "give alice diamond_sword 1"
    ∧ (processPurchaseLegacy ⟨true, true, true, 5⟩ [itemPriced50] [alice]
        pendingPurchase).1.status = "fulfilled"
    ∧ Event.notifySend 7 ∈
        (processPurchaseLegacy ⟨true, true, true, 5⟩ [itemPriced50] [alice]
          pendingPurchase).2 := by
  have h := C7_notification_behavior ⟨true, true, true, 5⟩ [itemPriced50]
    [alice] pendingPurchase itemPriced50 alice
    "give \x7busername\x7d diamond_sword 1" "give alice diamond_sword 1"
    (by decide) (by decide) rfl (by decide)
  have h1 := h.1 rfl rfl rfl
  exact ⟨by decide, by decide, rfl, by decide, h1.1, h1.2⟩

end DBot
